import Mathlib

/-!
Shallow embedding of the Rize repetition-counting core (`src/lib/poseMath.ts`,
enhanced revision, plus the counting block of
`src/components/PoseOverlay.tsx`).

Conventions:
* JS `number` values that only feed comparisons and exact plus/minus arithmetic
  (angles, timestamps, pixel coordinates) are modelled as `ℚ`; the special
  value `NaN` (every comparison false) is modelled by `Option ℚ` with
  `none` playing NaN, via the comparison helpers `numLt`/`numLe`/`numGe`/
  `numGt` below.
* The trigonometric geometry (`calculateAngle`) is modelled over `ℝ`,
  with `Math.atan2 y x` as `Complex.arg (x + y*I)` (both return the
  principal angle in `(-π, π]`).
* In-place mutation of the engine record becomes functional record update.
-/

namespace Rize

/-- JS float comparison `a < b` where `a` may be NaN (`none`): NaN
compares false. -/
def numLt (a : Option ℚ) (b : ℚ) : Bool :=
  match a with
  | some q => decide (q < b)
  | none => false

/-- JS float comparison `a <= b` where `a` may be NaN (`none`). -/
def numLe (a : Option ℚ) (b : ℚ) : Bool :=
  match a with
  | some q => decide (q ≤ b)
  | none => false

/-- JS float comparison `a >= b` where `a` may be NaN (`none`). -/
def numGe (a : Option ℚ) (b : ℚ) : Bool :=
  match a with
  | some q => decide (b ≤ q)
  | none => false

/-- JS float comparison `a > b` where `a` may be NaN (`none`). -/
def numGt (a : Option ℚ) (b : ℚ) : Bool :=
  match a with
  | some q => decide (b < q)
  | none => false

/-- `export type RepPhase = "UP" | "GOING_DOWN" | "DOWN" | "GOING_UP"` -/
inductive RepPhase where
  | UP
  | GOING_DOWN
  | DOWN
  | GOING_UP
  deriving DecidableEq, Repr

/-- `export interface RepEngine` (enhanced revision, with `repStartTime`).
`reps` is a JS number that the orchestrator may decrement, so it is
modelled as `ℤ`. -/
structure RepEngine where
  phase : RepPhase
  reps : ℤ
  holdFrames : ℕ
  lastRepTime : ℚ
  repStartTime : ℚ
  deriving DecidableEq, Repr

/-- `const DEBOUNCE_FRAMES = 3` -/
def DEBOUNCE_FRAMES : ℕ := 3

/-- `const COOLDOWN_MS = 350` -/
def COOLDOWN_MS : ℚ := 350

/-- `const MIN_REP_DURATION_MS = 350` -/
def MIN_REP_DURATION_MS : ℚ := 350

/-- `createRepEngine()` -/
def createRepEngine : RepEngine :=
  { phase := .UP, reps := 0, holdFrames := 0, lastRepTime := 0, repStartTime := 0 }

/-- `tickRepEngine(engine, elbowAngle, now, A_UP = 155, A_DOWN = 95)`
from the enhanced revision of `poseMath.ts` (hysteresis margins and the
minimum-duration gate included).  `elbowAngle = none` models NaN. -/
def tickRepEngine (engine : RepEngine) (elbowAngle : Option ℚ) (now : ℚ)
    (A_UP : ℚ := 155) (A_DOWN : ℚ := 95) : RepEngine :=
  match engine.phase with
  | .UP =>
      if numLt elbowAngle (A_UP - 5) then
        { engine with phase := .GOING_DOWN, holdFrames := 0 }
      else engine
  | .GOING_DOWN =>
      if numLe elbowAngle A_DOWN then
        let h := engine.holdFrames + 1
        if DEBOUNCE_FRAMES ≤ h then
          { engine with phase := .DOWN, holdFrames := 0, repStartTime := now }
        else
          { engine with holdFrames := h }
      else if numGe elbowAngle A_UP then
        { engine with phase := .UP, holdFrames := 0 }
      else
        { engine with holdFrames := 0 }
  | .DOWN =>
      if numGt elbowAngle (A_DOWN + 5) then
        { engine with phase := .GOING_UP, holdFrames := 0 }
      else engine
  | .GOING_UP =>
      if numGe elbowAngle A_UP then
        let h := engine.holdFrames + 1
        if DEBOUNCE_FRAMES ≤ h then
          if COOLDOWN_MS < now - engine.lastRepTime ∧
              MIN_REP_DURATION_MS ≤ now - engine.repStartTime then
            { engine with reps := engine.reps + 1, lastRepTime := now,
                          phase := .UP, holdFrames := 0 }
          else
            { engine with phase := .UP, holdFrames := 0 }
        else
          { engine with holdFrames := h }
      else if numLe elbowAngle A_DOWN then
        { engine with phase := .DOWN, holdFrames := 0 }
      else
        { engine with holdFrames := 0 }

/-- Fold `tickRepEngine` over a list of (angle, timestamp) ticks. -/
def runRepEngine (engine : RepEngine) (ticks : List (Option ℚ × ℚ))
    (A_UP : ℚ := 155) (A_DOWN : ℚ := 95) : RepEngine :=
  ticks.foldl (fun e t => tickRepEngine e t.1 t.2 A_UP A_DOWN) engine

/-- `class EMA`: `value: number | null`, `alpha`.  `null` is `none`. -/
structure EMA where
  value : Option ℚ
  alpha : ℚ
  deriving DecidableEq, Repr

/-- `new EMA(alpha = 0.35)` -/
def EMA.mk' (alpha : ℚ := 35/100) : EMA :=
  { value := none, alpha := alpha }

/-- `EMA.add(raw)`: returns the updated smoother together with the
smoothed value it returns. -/
def EMA.add (s : EMA) (raw : ℚ) : EMA × ℚ :=
  match s.value with
  | none => ({ s with value := some raw }, raw)
  | some v =>
      let nv := s.alpha * raw + (1 - s.alpha) * v
      ({ s with value := some nv }, nv)

/-- `EMA.get()`: `this.value ?? 0`. -/
def EMA.get (s : EMA) : ℚ :=
  s.value.getD 0

/-- `EMA.reset()` -/
def EMA.reset (s : EMA) : EMA :=
  { s with value := none }

/-- The list of values successively returned by `EMA.add` along an input
stream. -/
def EMA.outputs (s : EMA) (xs : List ℚ) : List ℚ :=
  match xs with
  | [] => []
  | x :: rest =>
      let r := s.add x
      r.2 :: r.1.outputs rest

/-- The camera view mode `"front" | "side"`. -/
inductive ViewMode where
  | front
  | side
  deriving DecidableEq, Repr

/-- `class BodyDepthTracker`: EMA baseline, per-rep max depth (sentinel
`-1`), required drop in pixels. -/
structure BodyDepthTracker where
  baselineY : EMA
  maxDownY : ℚ
  requiredDropPx : ℚ
  deriving DecidableEq, Repr

/-- `new BodyDepthTracker(alpha = 0.1)` -/
def BodyDepthTracker.mk' (alpha : ℚ := 1/10) : BodyDepthTracker :=
  { baselineY := EMA.mk' alpha, maxDownY := -1, requiredDropPx := 0 }

/-- `updateBaseline(y)` -/
def BodyDepthTracker.updateBaseline (t : BodyDepthTracker) (y : ℚ) :
    BodyDepthTracker :=
  { t with baselineY := (t.baselineY.add y).1 }

/-- `trackDepth(y)` -/
def BodyDepthTracker.trackDepth (t : BodyDepthTracker) (y : ℚ) :
    BodyDepthTracker :=
  if t.maxDownY = -1 ∨ t.maxDownY < y then { t with maxDownY := y } else t

/-- `setRequiredDrop(shoulderWidthPx, mode)` -/
def BodyDepthTracker.setRequiredDrop (t : BodyDepthTracker)
    (shoulderWidthPx : ℚ) (mode : ViewMode) : BodyDepthTracker :=
  let factor : ℚ := if mode = .front then 10/100 else 6/100
  let minPx : ℚ := if mode = .front then 18 else 12
  { t with requiredDropPx := max (shoulderWidthPx * factor) minPx }

/-- `checkValidity()` -/
def BodyDepthTracker.checkValidity (t : BodyDepthTracker) : Bool :=
  let baseline := t.baselineY.get
  if baseline = 0 ∨ t.maxDownY = -1 then false
  else decide (t.requiredDropPx ≤ t.maxDownY - baseline)

/-- `resetRep()` -/
def BodyDepthTracker.resetRep (t : BodyDepthTracker) : BodyDepthTracker :=
  { t with maxDownY := -1 }

/-- `get depthSignal()` -/
def BodyDepthTracker.depthSignal (t : BodyDepthTracker) : ℚ :=
  let baseline := t.baselineY.get
  if baseline = 0 ∨ t.maxDownY = -1 then 0
  else t.maxDownY - baseline

/-!
The counting part of `PoseOverlay.detect` (the per-frame orchestrator):
depth-tracker feeding, the `tickRepEngine` call, and the depth rollback
correction on the `GOING_UP → UP` transition.  Per frame the orchestrator
receives the (smoothed) elbow angle, the timestamp, the mid-shoulder
pixel height and the shoulder width in pixels.
-/

/-- The mutable per-session state the counting block uses: the rep
engine, the depth tracker and the `isValidRepRef` flag. -/
structure Session where
  engine : RepEngine
  tracker : BodyDepthTracker
  isValidRep : Bool
  deriving DecidableEq, Repr

/-- Fresh session state (refs as initialised in `PoseOverlay`). -/
def createSession : Session :=
  { engine := createRepEngine, tracker := BodyDepthTracker.mk' (1/10),
    isValidRep := true }

/-- One input frame for the counting block. -/
structure Frame where
  elbowAngle : Option ℚ
  now : ℚ
  midShoulderY : ℚ
  shoulderWidthPx : ℚ
  deriving DecidableEq, Repr

/-- One frame of `PoseOverlay.detect`'s counting logic (front mode,
post-calibration), lines 510–548: feed the depth tracker, compute
`depthOk`, tick the engine, then apply the rollback correction and the
depth-validity latch. -/
def detectStep (s : Session) (f : Frame) (A_UP : ℚ) (A_DOWN : ℚ) :
    Session :=
  let tracker := s.tracker.setRequiredDrop f.shoulderWidthPx .front
  let tracker :=
    if s.engine.phase = .UP then tracker.updateBaseline f.midShoulderY
    else tracker.trackDepth f.midShoulderY
  let depthOk := tracker.checkValidity
  let prevPhase := s.engine.phase
  let engine := tickRepEngine s.engine f.elbowAngle f.now A_UP A_DOWN
  let rolledBack := prevPhase = .GOING_UP ∧ engine.phase = .UP
  let engine :=
    if rolledBack ∧ ¬s.isValidRep then { engine with reps := engine.reps - 1 }
    else engine
  let tracker := if rolledBack then tracker.resetRep else tracker
  let isValidRep := if rolledBack then true else s.isValidRep
  let isValidRep :=
    if engine.phase = .GOING_UP ∧ prevPhase = .DOWN ∧ depthOk = false then
      false
    else isValidRep
  { engine := engine, tracker := tracker, isValidRep := isValidRep }

/-- Fold `detectStep` over a list of frames. -/
def runDetect (s : Session) (frames : List Frame) (A_UP : ℚ) (A_DOWN : ℚ) :
    Session :=
  frames.foldl (fun st f => detectStep st f A_UP A_DOWN) s

/-- `export interface Point` (geometry claims use only `x`, `y`). -/
structure Point where
  x : ℝ
  y : ℝ

/-- `Math.atan2 y x`, the principal angle of the point `(x, y)` in
`(-π, π]`, as `Complex.arg`. -/
noncomputable def atan2 (y x : ℝ) : ℝ :=
  Complex.arg { re := x, im := y }

/-- `calculateAngle(A, B, C)` from `poseMath.ts`:
`atan2(C.y-B.y, C.x-B.x) - atan2(A.y-B.y, A.x-B.x)`, converted to
degrees, absolute value, folded over 180. -/
noncomputable def calculateAngle (A B C : Point) : ℝ :=
  let radians := atan2 (C.y - B.y) (C.x - B.x) - atan2 (A.y - B.y) (A.x - B.x)
  let angle := |radians * 180 / Real.pi|
  if 180 < angle then 360 - angle else angle

/-! ## Theorems -/

/-- C10: a single `tickRepEngine` call changes `reps` by 0 or exactly +1,
for every engine state, angle (NaN included), timestamp and threshold
pair; the engine itself never decrements the counter. -/
theorem C10_tick_reps_delta (e : RepEngine) (a : Option ℚ)
    (now A_UP A_DOWN : ℚ) :
    (tickRepEngine e a now A_UP A_DOWN).reps = e.reps ∨
    (tickRepEngine e a now A_UP A_DOWN).reps = e.reps + 1 := by
  obtain ⟨ph, r, hf, l, s⟩ := e
  cases ph <;> simp only [tickRepEngine] <;> split_ifs <;> simp

/-- C4: from phase `GOING_DOWN`, a tick whose angle is at or above `A_UP`
(under a sane configuration `A_DOWN < A_UP`) returns the phase to `UP`
and leaves `reps` unchanged: the aborted candidate is never counted. -/
theorem C4_goingdown_abort (e : RepEngine) (a now A_UP A_DOWN : ℚ)
    (hph : e.phase = .GOING_DOWN) (hth : A_DOWN < A_UP) (ha : A_UP ≤ a) :
    (tickRepEngine e (some a) now A_UP A_DOWN).phase = .UP ∧
    (tickRepEngine e (some a) now A_UP A_DOWN).reps = e.reps := by
  have h1 : ¬ a ≤ A_DOWN := by linarith
  unfold tickRepEngine
  rw [hph]
  simp [numLe, numGe, h1, ha]

theorem C4_goingdown_abort_witness :
    (tickRepEngine
        { phase := .GOING_DOWN, reps := 5, holdFrames := 1,
          lastRepTime := 0, repStartTime := 0 }
        (some 160) 1000 155 95).phase = .UP ∧
    (tickRepEngine
        { phase := .GOING_DOWN, reps := 5, holdFrames := 1,
          lastRepTime := 0, repStartTime := 0 }
        (some 160) 1000 155 95).reps = (5 : ℤ) :=
  C4_goingdown_abort _ 160 1000 155 95 rfl (by norm_num) (by norm_num)

/-- C5 (counterexample): a NaN-angle tick is not a no-op — in phase
`GOING_DOWN` with two frames of debounce progress, the tick resets
`holdFrames` to 0, so the current state is not held. -/
theorem C5_counterexample :
    tickRepEngine
        { phase := .GOING_DOWN, reps := 0, holdFrames := 2,
          lastRepTime := 0, repStartTime := 0 }
        none 100 155 95 ≠
      { phase := .GOING_DOWN, reps := 0, holdFrames := 2,
        lastRepTime := 0, repStartTime := 0 } := by
  simp [tickRepEngine, numLe, numGe]

/-- C5 (amended): a NaN-angle tick never crashes, never changes the
phase, never changes `reps` and never advances `holdFrames`; in phases
`UP` and `DOWN` it is a complete no-op, while in `GOING_DOWN` and
`GOING_UP` it resets the debounce progress `holdFrames` to 0 instead of
holding it. -/
theorem C5_nan_tick (e : RepEngine) (now A_UP A_DOWN : ℚ) :
    tickRepEngine e none now A_UP A_DOWN =
      if e.phase = .GOING_DOWN ∨ e.phase = .GOING_UP then
        { e with holdFrames := 0 }
      else e := by
  obtain ⟨ph, r, hf, l, s⟩ := e
  cases ph <;> simp [tickRepEngine, numLt, numLe, numGe, numGt]

/-- C6 (counterexample): after `updateBaseline(0)` the baseline is
established (the EMA holds a value) and after `trackDepth(50)` a depth
is tracked with `maxDownY - baselineY = 50 ≥ requiredDropPx = 18`, yet
`checkValidity()` returns `false`, because the sentinel test
`baseline === 0` conflates a real baseline of 0 with "no baseline". -/
theorem C6_counterexample :
    ((((BodyDepthTracker.mk' (1/10)).updateBaseline 0).setRequiredDrop
        100 .front).trackDepth 50).baselineY.value.isSome = true ∧
    ((((BodyDepthTracker.mk' (1/10)).updateBaseline 0).setRequiredDrop
        100 .front).trackDepth 50).maxDownY ≠ -1 ∧
    ((((BodyDepthTracker.mk' (1/10)).updateBaseline 0).setRequiredDrop
          100 .front).trackDepth 50).requiredDropPx ≤
      ((((BodyDepthTracker.mk' (1/10)).updateBaseline 0).setRequiredDrop
          100 .front).trackDepth 50).maxDownY -
        ((((BodyDepthTracker.mk' (1/10)).updateBaseline 0).setRequiredDrop
            100 .front).trackDepth 50).baselineY.get ∧
    ((((BodyDepthTracker.mk' (1/10)).updateBaseline 0).setRequiredDrop
        100 .front).trackDepth 50).checkValidity = false := by
  have ht : (((BodyDepthTracker.mk' (1/10)).updateBaseline 0).setRequiredDrop
        100 .front).trackDepth 50
      = { baselineY := { value := some 0, alpha := 1/10 },
          maxDownY := 50, requiredDropPx := 18 } := by
    norm_num [BodyDepthTracker.mk', EMA.mk', BodyDepthTracker.updateBaseline,
      EMA.add, BodyDepthTracker.setRequiredDrop, BodyDepthTracker.trackDepth,
      max_def]
  rw [ht]
  norm_num [BodyDepthTracker.checkValidity, EMA.get]

/-- C6 (amended): `checkValidity()` returns `true` iff the baseline
EMA's current value is nonzero, the tracked per-rep depth differs from
the `-1` sentinel, and `maxDownY - baselineY ≥ requiredDropPx`; "no
baseline" and "no tracked depth" are detected by the sentinel values
`baseline = 0` and `maxDownY = -1` (so an established baseline of
exactly 0 counts as missing), and immediately after `resetRep()` it
returns `false`. -/
theorem C6_checkValidity_spec (t : BodyDepthTracker) :
    (t.checkValidity = true ↔
      (t.baselineY.get ≠ 0 ∧ t.maxDownY ≠ -1 ∧
        t.requiredDropPx ≤ t.maxDownY - t.baselineY.get)) ∧
    t.resetRep.checkValidity = false := by
  constructor
  · simp only [BodyDepthTracker.checkValidity]
    split_ifs with h
    · simp only [Bool.false_eq_true, false_iff]
      rcases h with h | h
      · tauto
      · tauto
    · push_neg at h
      simp [h.1, h.2]
  · simp [BodyDepthTracker.resetRep, BodyDepthTracker.checkValidity]

/-- C7: there is no setup-time validation of the calibration thresholds
anywhere in the code — `createRepEngine()` takes no thresholds at all,
and `tickRepEngine` accepts an invalid configuration `A_DOWN ≥ A_UP`
per frame and processes the tick normally (here `A_UP = 90`,
`A_DOWN = 95`: the fresh engine happily transitions to `GOING_DOWN`
instead of anything being rejected). -/
theorem C7_invalid_thresholds_tolerated :
    (tickRepEngine createRepEngine (some 80) 0 90 95).phase
        = .GOING_DOWN ∧
    (tickRepEngine createRepEngine (some 92) 0 90 95).phase = .UP := by
  constructor <;> norm_num [tickRepEngine, createRepEngine, numLt]

/-- Every call of `EMA.add` on an already-seeded smoother with value `c`
fed the constant `c` returns `c` again, so the whole output stream is
constant. -/
theorem ema_outputs_const (alpha c : ℚ) (m : ℕ) :
    EMA.outputs { value := some c, alpha := alpha } (List.replicate m c)
      = List.replicate m c := by
  have hc : alpha * c + (1 - alpha) * c = c := by ring
  induction m with
  | zero => rfl
  | succ k ih =>
      rw [List.replicate_succ]
      show (EMA.add { value := some c, alpha := alpha } c).2 ::
          EMA.outputs (EMA.add { value := some c, alpha := alpha } c).1
            (List.replicate k c) = _
      simp only [EMA.add, hc]
      exact congrArg (c :: ·) ih

/-- C8: the first `EMA.add` after construction (`EMA.mk'`) or after
`reset()` returns its input unchanged; every subsequent call (state
`value = some v`) returns `alpha*raw + (1-alpha)*v`; consequently on a
constant input stream every returned value equals that constant. -/
theorem C8_ema_contract (alpha v raw c : ℚ) (n : ℕ) (s : EMA) :
    (EMA.add (EMA.mk' alpha) raw).2 = raw ∧
    ((EMA.reset s).add raw).2 = raw ∧
    (EMA.add { value := some v, alpha := alpha } raw).2
      = alpha * raw + (1 - alpha) * v ∧
    EMA.outputs (EMA.mk' alpha) (List.replicate n c) = List.replicate n c := by
  refine ⟨rfl, rfl, rfl, ?_⟩
  cases n with
  | zero => rfl
  | succ m =>
      rw [List.replicate_succ]
      show (EMA.add (EMA.mk' alpha) c).2 ::
          EMA.outputs (EMA.add (EMA.mk' alpha) c).1 (List.replicate m c) = _
      simp only [EMA.add, EMA.mk']
      exact congrArg (c :: ·) (ema_outputs_const alpha c m)

/-- Peeling one tick off a run. -/
theorem runRepEngine_cons (e : RepEngine) (x : Option ℚ) (t : ℚ)
    (ts : List (Option ℚ × ℚ)) (A_UP A_DOWN : ℚ) :
    runRepEngine e ((x, t) :: ts) A_UP A_DOWN
      = runRepEngine (tickRepEngine e x t A_UP A_DOWN) ts A_UP A_DOWN := rfl

/-- Splitting a run at a list append. -/
theorem runRepEngine_append (e : RepEngine) (ts us : List (Option ℚ × ℚ))
    (A_UP A_DOWN : ℚ) :
    runRepEngine e (ts ++ us) A_UP A_DOWN
      = runRepEngine (runRepEngine e ts A_UP A_DOWN) us A_UP A_DOWN := by
  simp [runRepEngine]

/-- A tick whose timestamp is within `COOLDOWN_MS` of `lastRepTime`
cannot count a rep: `reps` and `lastRepTime` are left unchanged. -/
theorem tick_in_cooldown (e : RepEngine) (a : Option ℚ) (now A_UP A_DOWN : ℚ)
    (hn : now ≤ e.lastRepTime + COOLDOWN_MS) :
    (tickRepEngine e a now A_UP A_DOWN).reps = e.reps ∧
    (tickRepEngine e a now A_UP A_DOWN).lastRepTime = e.lastRepTime := by
  have hgate : ¬ (COOLDOWN_MS < now - e.lastRepTime ∧
      MIN_REP_DURATION_MS ≤ now - e.repStartTime) := by
    rintro ⟨h1, -⟩
    linarith
  unfold tickRepEngine
  cases hph : e.phase <;> dsimp only <;> split_ifs <;> simp_all

/-- No tick in a run whose timestamps all stay within `COOLDOWN_MS` of
the last counted rep's timestamp `t1` can change `reps`. -/
theorem run_in_cooldown (A_UP A_DOWN t1 : ℚ) :
    ∀ (ticks : List (Option ℚ × ℚ)) (e : RepEngine),
      e.lastRepTime = t1 → (∀ p ∈ ticks, p.2 ≤ t1 + COOLDOWN_MS) →
      (runRepEngine e ticks A_UP A_DOWN).reps = e.reps
  | [], _, _, _ => rfl
  | p :: rest, e, h1, h2 => by
      have hstep := tick_in_cooldown e p.1 p.2 A_UP A_DOWN
        (by rw [h1]; exact h2 p (List.mem_cons_self p rest))
      have hrec := run_in_cooldown A_UP A_DOWN t1 rest
        (tickRepEngine e p.1 p.2 A_UP A_DOWN)
        (by rw [hstep.2, h1])
        (fun q hq => h2 q (List.mem_cons_of_mem p hq))
      calc (runRepEngine e (p :: rest) A_UP A_DOWN).reps
          = (runRepEngine (tickRepEngine e p.1 p.2 A_UP A_DOWN) rest
              A_UP A_DOWN).reps := rfl
        _ = (tickRepEngine e p.1 p.2 A_UP A_DOWN).reps := hrec
        _ = e.reps := hstep.1

/-- C3: when a `GOING_UP → UP` confirmation at time `t1` counts a rep,
it sets `lastRepTime := t1`, and any subsequent activity whose
timestamps stay within `t1 + COOLDOWN_MS` — in particular a second
confirmation completing at `t2` with `t2 - t1 ≤ COOLDOWN_MS` — adds no
further rep: of two confirmations at most `COOLDOWN_MS` apart, at most
one increments `reps`. -/
theorem C3_cooldown_suppresses_second (e : RepEngine) (a1 t1 A_UP A_DOWN : ℚ)
    (hph : e.phase = .GOING_UP) (ha : A_UP ≤ a1)
    (hhold : DEBOUNCE_FRAMES ≤ e.holdFrames + 1)
    (hcool : COOLDOWN_MS < t1 - e.lastRepTime)
    (hdur : MIN_REP_DURATION_MS ≤ t1 - e.repStartTime)
    (rest : List (Option ℚ × ℚ))
    (hrest : ∀ p ∈ rest, p.2 ≤ t1 + COOLDOWN_MS) :
    (tickRepEngine e (some a1) t1 A_UP A_DOWN).reps = e.reps + 1 ∧
    (runRepEngine (tickRepEngine e (some a1) t1 A_UP A_DOWN) rest
        A_UP A_DOWN).reps = e.reps + 1 := by
  have htick : tickRepEngine e (some a1) t1 A_UP A_DOWN
      = { e with
          reps := e.reps + 1, lastRepTime := t1,
          phase := .UP, holdFrames := 0 } := by
    unfold tickRepEngine
    rw [hph]
    simp [numGe, ha, hhold, hcool, hdur]
  have hrun := run_in_cooldown A_UP A_DOWN t1 rest
    (tickRepEngine e (some a1) t1 A_UP A_DOWN) (by rw [htick]) hrest
  exact ⟨by rw [htick], by rw [hrun, htick]⟩

theorem C3_cooldown_suppresses_second_witness :
    (tickRepEngine
        { phase := .GOING_UP, reps := 0, holdFrames := 2,
          lastRepTime := 0, repStartTime := 100 }
        (some 160) 1000 155 95).reps = 0 + 1 ∧
    (runRepEngine
        (tickRepEngine
          { phase := .GOING_UP, reps := 0, holdFrames := 2,
            lastRepTime := 0, repStartTime := 100 }
          (some 160) 1000 155 95)
        [(some 100, 1010), (some 90, 1020), (some 90, 1030), (some 90, 1040),
         (some 120, 1050), (some 160, 1060), (some 160, 1070), (some 160, 1080)]
        155 95).reps = 0 + 1 :=
  C3_cooldown_suppresses_second _ 160 1000 155 95 rfl (by norm_num)
    (by norm_num [DEBOUNCE_FRAMES]) (by norm_num [COOLDOWN_MS])
    (by norm_num [MIN_REP_DURATION_MS]) _
    (by intro p hp; fin_cases hp <;> norm_num [COOLDOWN_MS])

/-- In `UP`, an angle at or above `A_UP - 5` (the hysteresis margin)
leaves the engine unchanged. -/
theorem tick_up_stay (e : RepEngine) (a now A_UP A_DOWN : ℚ)
    (hph : e.phase = .UP) (ha : A_UP - 5 ≤ a) :
    tickRepEngine e (some a) now A_UP A_DOWN = e := by
  have h1 : ¬ a < A_UP - 5 := not_lt.mpr ha
  unfold tickRepEngine
  rw [hph]
  simp [numLt, h1]

/-- In `UP`, an angle strictly below `A_UP - 5` starts a descent. -/
theorem tick_up_enter (e : RepEngine) (a now A_UP A_DOWN : ℚ)
    (hph : e.phase = .UP) (ha : a < A_UP - 5) :
    tickRepEngine e (some a) now A_UP A_DOWN
      = { e with phase := .GOING_DOWN, holdFrames := 0 } := by
  unfold tickRepEngine
  rw [hph]
  simp [numLt, ha]

/-- In `GOING_DOWN`, an angle at or below `A_DOWN` advances the debounce
counter while it is still short of `DEBOUNCE_FRAMES`. -/
theorem tick_gd_hold (e : RepEngine) (a now A_UP A_DOWN : ℚ)
    (hph : e.phase = .GOING_DOWN) (ha : a ≤ A_DOWN)
    (hh : e.holdFrames + 1 < DEBOUNCE_FRAMES) :
    tickRepEngine e (some a) now A_UP A_DOWN
      = { e with holdFrames := e.holdFrames + 1 } := by
  have h1 : ¬ DEBOUNCE_FRAMES ≤ e.holdFrames + 1 := not_le.mpr hh
  unfold tickRepEngine
  rw [hph]
  simp [numLe, ha, h1]

/-- In `GOING_DOWN`, the `DEBOUNCE_FRAMES`-th consecutive angle at or
below `A_DOWN` confirms `DOWN` and records `repStartTime := now`. -/
theorem tick_gd_confirm (e : RepEngine) (a now A_UP A_DOWN : ℚ)
    (hph : e.phase = .GOING_DOWN) (ha : a ≤ A_DOWN)
    (hh : DEBOUNCE_FRAMES ≤ e.holdFrames + 1) :
    tickRepEngine e (some a) now A_UP A_DOWN
      = { e with
          phase := .DOWN, holdFrames := 0, repStartTime := now } := by
  unfold tickRepEngine
  rw [hph]
  simp [numLe, ha, hh]

/-- In `DOWN`, an angle at or below `A_DOWN + 5` leaves the engine
unchanged. -/
theorem tick_down_stay (e : RepEngine) (a now A_UP A_DOWN : ℚ)
    (hph : e.phase = .DOWN) (ha : a ≤ A_DOWN + 5) :
    tickRepEngine e (some a) now A_UP A_DOWN = e := by
  have h1 : ¬ A_DOWN + 5 < a := not_lt.mpr ha
  unfold tickRepEngine
  rw [hph]
  simp [numGt, h1]

/-- In `DOWN`, an angle strictly above `A_DOWN + 5` starts the ascent. -/
theorem tick_down_rise (e : RepEngine) (a now A_UP A_DOWN : ℚ)
    (hph : e.phase = .DOWN) (ha : A_DOWN + 5 < a) :
    tickRepEngine e (some a) now A_UP A_DOWN
      = { e with phase := .GOING_UP, holdFrames := 0 } := by
  unfold tickRepEngine
  rw [hph]
  simp [numGt, ha]

/-- In `GOING_UP`, an angle at or above `A_UP` advances the debounce
counter while it is still short of `DEBOUNCE_FRAMES`. -/
theorem tick_gu_hold (e : RepEngine) (a now A_UP A_DOWN : ℚ)
    (hph : e.phase = .GOING_UP) (ha : A_UP ≤ a)
    (hh : e.holdFrames + 1 < DEBOUNCE_FRAMES) :
    tickRepEngine e (some a) now A_UP A_DOWN
      = { e with holdFrames := e.holdFrames + 1 } := by
  have h1 : ¬ DEBOUNCE_FRAMES ≤ e.holdFrames + 1 := not_le.mpr hh
  unfold tickRepEngine
  rw [hph]
  simp [numGe, ha, h1]

/-- In `GOING_UP`, the `DEBOUNCE_FRAMES`-th consecutive angle at or
above `A_UP` confirms the rep when it passes the cooldown and
minimum-duration gates. -/
theorem tick_gu_count (e : RepEngine) (a now A_UP A_DOWN : ℚ)
    (hph : e.phase = .GOING_UP) (ha : A_UP ≤ a)
    (hh : DEBOUNCE_FRAMES ≤ e.holdFrames + 1)
    (hcool : COOLDOWN_MS < now - e.lastRepTime)
    (hdur : MIN_REP_DURATION_MS ≤ now - e.repStartTime) :
    tickRepEngine e (some a) now A_UP A_DOWN
      = { e with
          reps := e.reps + 1, lastRepTime := now,
          phase := .UP, holdFrames := 0 } := by
  unfold tickRepEngine
  rw [hph]
  simp [numGe, ha, hh, hcool, hdur]

/-- A run of angles at or above `A_UP` starting in `UP` leaves the
engine unchanged (steady lockout). -/
theorem run_up_stay (A_UP A_DOWN : ℚ) :
    ∀ (L : List (ℚ × ℚ)) (e : RepEngine), e.phase = .UP →
      (∀ p ∈ L, A_UP ≤ p.1) →
      runRepEngine e (L.map fun p => (some p.1, p.2)) A_UP A_DOWN = e
  | [], _, _, _ => rfl
  | p :: L, e, hph, hL => by
      have h1 : tickRepEngine e (some p.1) p.2 A_UP A_DOWN = e :=
        tick_up_stay e p.1 p.2 A_UP A_DOWN hph
          (le_trans (by linarith) (hL p (List.mem_cons_self p L)))
      calc runRepEngine e ((p :: L).map fun q => (some q.1, q.2)) A_UP A_DOWN
          = runRepEngine (tickRepEngine e (some p.1) p.2 A_UP A_DOWN)
              (L.map fun q => (some q.1, q.2)) A_UP A_DOWN := rfl
        _ = runRepEngine e (L.map fun q => (some q.1, q.2)) A_UP A_DOWN := by
              rw [h1]
        _ = e := run_up_stay A_UP A_DOWN L e hph
              fun q hq => hL q (List.mem_cons_of_mem p hq)

/-- A run of angles at or below `A_DOWN` starting in `DOWN` leaves the
engine unchanged (steady bottom). -/
theorem run_down_stay (A_UP A_DOWN : ℚ) :
    ∀ (L : List (ℚ × ℚ)) (e : RepEngine), e.phase = .DOWN →
      (∀ p ∈ L, p.1 ≤ A_DOWN) →
      runRepEngine e (L.map fun p => (some p.1, p.2)) A_UP A_DOWN = e
  | [], _, _, _ => rfl
  | p :: L, e, hph, hL => by
      have h1 : tickRepEngine e (some p.1) p.2 A_UP A_DOWN = e :=
        tick_down_stay e p.1 p.2 A_UP A_DOWN hph
          (le_trans (hL p (List.mem_cons_self p L)) (by linarith))
      calc runRepEngine e ((p :: L).map fun q => (some q.1, q.2)) A_UP A_DOWN
          = runRepEngine (tickRepEngine e (some p.1) p.2 A_UP A_DOWN)
              (L.map fun q => (some q.1, q.2)) A_UP A_DOWN := rfl
        _ = runRepEngine e (L.map fun q => (some q.1, q.2)) A_UP A_DOWN := by
              rw [h1]
        _ = e := run_down_stay A_UP A_DOWN L e hph
              fun q hq => hL q (List.mem_cons_of_mem p hq)

/-- C1 (counterexample): the claim's descent trigger "angle drops below
`A_UP`" is not sufficient — with the default thresholds
`A_UP = 155`, `A_DOWN = 95`, the sequence 152 (below `A_UP` but inside
the `A_UP - 5` hysteresis band), three ticks at 90 (at or below
`A_DOWN`), then three ticks at 160 (at or above `A_UP`), with the
claim's bottom-confirmation timestamp 300, confirmation timestamp 900
(duration 600 ≥ `MIN_REP_DURATION_MS`, 900 - `lastRepTime` = 900 >
`COOLDOWN_MS`), counts 0 reps instead of the claimed exactly 1. -/
theorem C1_counterexample :
    (runRepEngine createRepEngine
        [(some 152, 0), (some 90, 100), (some 90, 200), (some 90, 300),
         (some 160, 700), (some 160, 800), (some 160, 900)]
        155 95).reps = 0 ∧
    (runRepEngine createRepEngine
        [(some 152, 0), (some 90, 100), (some 90, 200), (some 90, 300),
         (some 160, 700), (some 160, 800), (some 160, 900)]
        155 95).phase = .UP := by
  norm_num [runRepEngine, createRepEngine, tickRepEngine, numLt, numLe,
    numGe, numGt, DEBOUNCE_FRAMES, COOLDOWN_MS, MIN_REP_DURATION_MS]

/-- C1 (amended): starting from any engine in phase `UP`, under a sane
configuration `A_DOWN + 5 < A_UP`, a full cycle consisting of a descent
tick with angle below `A_UP - 5` (the hysteresis margin), at least
`DEBOUNCE_FRAMES` consecutive ticks at or below `A_DOWN` after it
(confirming `DOWN` on the third, at timestamp `s₃`), then at least
`DEBOUNCE_FRAMES + 1` consecutive ticks at or above `A_UP` (the first
completing the `DOWN → GOING_UP` transition, the confirmation landing on
the fourth, at timestamp `r₄`), with `r₄ - s₃ ≥ MIN_REP_DURATION_MS` and
`r₄ - lastRepTime > COOLDOWN_MS`, increments `reps` by exactly 1 and
ends with phase `UP`. -/
theorem C1_full_cycle_counts_one (e : RepEngine)
    (A_UP A_DOWN a₀ t₀ b₁ s₁ b₂ s₂ b₃ s₃ c₁ r₁ c₂ r₂ c₃ r₃ c₄ r₄ : ℚ)
    (drest urest : List (ℚ × ℚ))
    (hph : e.phase = .UP)
    (hth : A_DOWN + 5 < A_UP)
    (h₀ : a₀ < A_UP - 5)
    (hb₁ : b₁ ≤ A_DOWN) (hb₂ : b₂ ≤ A_DOWN) (hb₃ : b₃ ≤ A_DOWN)
    (hdr : ∀ p ∈ drest, p.1 ≤ A_DOWN)
    (hc₁ : A_UP ≤ c₁) (hc₂ : A_UP ≤ c₂) (hc₃ : A_UP ≤ c₃) (hc₄ : A_UP ≤ c₄)
    (hur : ∀ p ∈ urest, A_UP ≤ p.1)
    (hdur : MIN_REP_DURATION_MS ≤ r₄ - s₃)
    (hcool : COOLDOWN_MS < r₄ - e.lastRepTime) :
    runRepEngine e
        ((some a₀, t₀) :: (some b₁, s₁) :: (some b₂, s₂) :: (some b₃, s₃) ::
          ((drest.map fun p => (some p.1, p.2)) ++
            ((some c₁, r₁) :: (some c₂, r₂) :: (some c₃, r₃) ::
              (some c₄, r₄) :: urest.map fun p => (some p.1, p.2))))
        A_UP A_DOWN
      = { e with
          phase := .UP, holdFrames := 0, reps := e.reps + 1,
          lastRepTime := r₄, repStartTime := s₃ } := by
  have h1 : tickRepEngine e (some a₀) t₀ A_UP A_DOWN
      = ⟨.GOING_DOWN, e.reps, 0, e.lastRepTime, e.repStartTime⟩ :=
    tick_up_enter e a₀ t₀ A_UP A_DOWN hph h₀
  have h2 : tickRepEngine ⟨.GOING_DOWN, e.reps, 0, e.lastRepTime, e.repStartTime⟩
        (some b₁) s₁ A_UP A_DOWN
      = ⟨.GOING_DOWN, e.reps, 1, e.lastRepTime, e.repStartTime⟩ :=
    tick_gd_hold _ b₁ s₁ A_UP A_DOWN rfl hb₁ (by norm_num [DEBOUNCE_FRAMES])
  have h3 : tickRepEngine ⟨.GOING_DOWN, e.reps, 1, e.lastRepTime, e.repStartTime⟩
        (some b₂) s₂ A_UP A_DOWN
      = ⟨.GOING_DOWN, e.reps, 2, e.lastRepTime, e.repStartTime⟩ :=
    tick_gd_hold _ b₂ s₂ A_UP A_DOWN rfl hb₂ (by norm_num [DEBOUNCE_FRAMES])
  have h4 : tickRepEngine ⟨.GOING_DOWN, e.reps, 2, e.lastRepTime, e.repStartTime⟩
        (some b₃) s₃ A_UP A_DOWN
      = ⟨.DOWN, e.reps, 0, e.lastRepTime, s₃⟩ :=
    tick_gd_confirm _ b₃ s₃ A_UP A_DOWN rfl hb₃ (by norm_num [DEBOUNCE_FRAMES])
  have hdown : runRepEngine ⟨.DOWN, e.reps, 0, e.lastRepTime, s₃⟩
        (drest.map fun p => (some p.1, p.2)) A_UP A_DOWN
      = ⟨.DOWN, e.reps, 0, e.lastRepTime, s₃⟩ :=
    run_down_stay A_UP A_DOWN drest _ rfl hdr
  have h5 : tickRepEngine ⟨.DOWN, e.reps, 0, e.lastRepTime, s₃⟩
        (some c₁) r₁ A_UP A_DOWN
      = ⟨.GOING_UP, e.reps, 0, e.lastRepTime, s₃⟩ :=
    tick_down_rise _ c₁ r₁ A_UP A_DOWN rfl (by linarith)
  have h6 : tickRepEngine ⟨.GOING_UP, e.reps, 0, e.lastRepTime, s₃⟩
        (some c₂) r₂ A_UP A_DOWN
      = ⟨.GOING_UP, e.reps, 1, e.lastRepTime, s₃⟩ :=
    tick_gu_hold _ c₂ r₂ A_UP A_DOWN rfl hc₂ (by norm_num [DEBOUNCE_FRAMES])
  have h7 : tickRepEngine ⟨.GOING_UP, e.reps, 1, e.lastRepTime, s₃⟩
        (some c₃) r₃ A_UP A_DOWN
      = ⟨.GOING_UP, e.reps, 2, e.lastRepTime, s₃⟩ :=
    tick_gu_hold _ c₃ r₃ A_UP A_DOWN rfl hc₃ (by norm_num [DEBOUNCE_FRAMES])
  have h8 : tickRepEngine ⟨.GOING_UP, e.reps, 2, e.lastRepTime, s₃⟩
        (some c₄) r₄ A_UP A_DOWN
      = ⟨.UP, e.reps + 1, 0, r₄, s₃⟩ :=
    tick_gu_count _ c₄ r₄ A_UP A_DOWN rfl hc₄
      (by norm_num [DEBOUNCE_FRAMES]) hcool hdur
  have hup : runRepEngine ⟨.UP, e.reps + 1, 0, r₄, s₃⟩
        (urest.map fun p => (some p.1, p.2)) A_UP A_DOWN
      = ⟨.UP, e.reps + 1, 0, r₄, s₃⟩ :=
    run_up_stay A_UP A_DOWN urest _ rfl hur
  rw [runRepEngine_cons, h1, runRepEngine_cons, h2, runRepEngine_cons, h3,
    runRepEngine_cons, h4, runRepEngine_append, hdown, runRepEngine_cons, h5,
    runRepEngine_cons, h6, runRepEngine_cons, h7, runRepEngine_cons, h8, hup]

theorem C1_full_cycle_counts_one_witness :
    runRepEngine createRepEngine
        [(some 140, 0), (some 90, 100), (some 90, 200), (some 90, 300),
         (some 160, 700), (some 160, 800), (some 160, 900), (some 160, 1000)]
        155 95
      = { createRepEngine with
          phase := .UP, holdFrames := 0, reps := createRepEngine.reps + 1,
          lastRepTime := 1000, repStartTime := 300 } :=
  C1_full_cycle_counts_one createRepEngine
    155 95 140 0 90 100 90 200 90 300 160 700 160 800 160 900 160 1000
    [] [] rfl (by norm_num) (by norm_num)
    (by norm_num) (by norm_num) (by norm_num) (by simp)
    (by norm_num) (by norm_num) (by norm_num) (by norm_num) (by simp)
    (by norm_num [MIN_REP_DURATION_MS])
    (by norm_num [COOLDOWN_MS, createRepEngine])

/-- Peeling one frame off a detect run. -/
theorem runDetect_cons (s : Session) (f : Frame) (fs : List Frame)
    (A_UP A_DOWN : ℚ) :
    runDetect s (f :: fs) A_UP A_DOWN
      = runDetect (detectStep s f A_UP A_DOWN) fs A_UP A_DOWN := rfl

/-- C2 (failing input for "never negative"): from a freshly created
session, a shallow too-fast candidate rep — descend at angle 100, hold
90 for three frames (confirming `DOWN`), rise through 120 with
insufficient body displacement (mid-shoulder Y constant at 300, so
`depthOk` is false and the validity latch trips), then hold 160 for
three frames — completes `GOING_UP → UP` with the rep increment
suppressed by the cooldown gate (nothing was counted), yet the
orchestrator's rollback still decrements the counter: `reps` ends at
-1. -/
theorem C2_reps_go_negative :
    (runDetect createSession
        [⟨some 100, 10, 300, 200⟩, ⟨some 90, 20, 300, 200⟩,
         ⟨some 90, 30, 300, 200⟩, ⟨some 90, 40, 300, 200⟩,
         ⟨some 120, 50, 300, 200⟩, ⟨some 160, 60, 300, 200⟩,
         ⟨some 160, 70, 300, 200⟩, ⟨some 160, 80, 300, 200⟩]
        155 95).engine.reps = -1 := by
  have s1 : detectStep createSession ⟨some 100, 10, 300, 200⟩ 155 95
      = ⟨⟨.GOING_DOWN, 0, 0, 0, 0⟩, ⟨⟨some 300, 1/10⟩, -1, 20⟩, true⟩ := by
    simp [detectStep, createSession, createRepEngine,
      BodyDepthTracker.mk', EMA.mk', tickRepEngine, numLt, numLe, numGe,
      numGt, BodyDepthTracker.updateBaseline, BodyDepthTracker.trackDepth,
      BodyDepthTracker.setRequiredDrop, BodyDepthTracker.checkValidity,
      BodyDepthTracker.resetRep, EMA.add, EMA.get, DEBOUNCE_FRAMES,
      COOLDOWN_MS, MIN_REP_DURATION_MS, max_def] <;> norm_num
  have s2 : detectStep ⟨⟨.GOING_DOWN, 0, 0, 0, 0⟩,
        ⟨⟨some 300, 1/10⟩, -1, 20⟩, true⟩ ⟨some 90, 20, 300, 200⟩ 155 95
      = ⟨⟨.GOING_DOWN, 0, 1, 0, 0⟩, ⟨⟨some 300, 1/10⟩, 300, 20⟩, true⟩ := by
    simp [detectStep, tickRepEngine, numLt, numLe, numGe, numGt,
      BodyDepthTracker.updateBaseline, BodyDepthTracker.trackDepth,
      BodyDepthTracker.setRequiredDrop, BodyDepthTracker.checkValidity,
      BodyDepthTracker.resetRep, EMA.add, EMA.get, DEBOUNCE_FRAMES,
      COOLDOWN_MS, MIN_REP_DURATION_MS, max_def] <;> norm_num
  have s3 : detectStep ⟨⟨.GOING_DOWN, 0, 1, 0, 0⟩,
        ⟨⟨some 300, 1/10⟩, 300, 20⟩, true⟩ ⟨some 90, 30, 300, 200⟩ 155 95
      = ⟨⟨.GOING_DOWN, 0, 2, 0, 0⟩, ⟨⟨some 300, 1/10⟩, 300, 20⟩, true⟩ := by
    simp [detectStep, tickRepEngine, numLt, numLe, numGe, numGt,
      BodyDepthTracker.updateBaseline, BodyDepthTracker.trackDepth,
      BodyDepthTracker.setRequiredDrop, BodyDepthTracker.checkValidity,
      BodyDepthTracker.resetRep, EMA.add, EMA.get, DEBOUNCE_FRAMES,
      COOLDOWN_MS, MIN_REP_DURATION_MS, max_def] <;> norm_num
  have s4 : detectStep ⟨⟨.GOING_DOWN, 0, 2, 0, 0⟩,
        ⟨⟨some 300, 1/10⟩, 300, 20⟩, true⟩ ⟨some 90, 40, 300, 200⟩ 155 95
      = ⟨⟨.DOWN, 0, 0, 0, 40⟩, ⟨⟨some 300, 1/10⟩, 300, 20⟩, true⟩ := by
    simp [detectStep, tickRepEngine, numLt, numLe, numGe, numGt,
      BodyDepthTracker.updateBaseline, BodyDepthTracker.trackDepth,
      BodyDepthTracker.setRequiredDrop, BodyDepthTracker.checkValidity,
      BodyDepthTracker.resetRep, EMA.add, EMA.get, DEBOUNCE_FRAMES,
      COOLDOWN_MS, MIN_REP_DURATION_MS, max_def] <;> norm_num
  have s5 : detectStep ⟨⟨.DOWN, 0, 0, 0, 40⟩,
        ⟨⟨some 300, 1/10⟩, 300, 20⟩, true⟩ ⟨some 120, 50, 300, 200⟩ 155 95
      = ⟨⟨.GOING_UP, 0, 0, 0, 40⟩, ⟨⟨some 300, 1/10⟩, 300, 20⟩, false⟩ := by
    simp [detectStep, tickRepEngine, numLt, numLe, numGe, numGt,
      BodyDepthTracker.updateBaseline, BodyDepthTracker.trackDepth,
      BodyDepthTracker.setRequiredDrop, BodyDepthTracker.checkValidity,
      BodyDepthTracker.resetRep, EMA.add, EMA.get, DEBOUNCE_FRAMES,
      COOLDOWN_MS, MIN_REP_DURATION_MS, max_def] <;> norm_num
  have s6 : detectStep ⟨⟨.GOING_UP, 0, 0, 0, 40⟩,
        ⟨⟨some 300, 1/10⟩, 300, 20⟩, false⟩ ⟨some 160, 60, 300, 200⟩ 155 95
      = ⟨⟨.GOING_UP, 0, 1, 0, 40⟩, ⟨⟨some 300, 1/10⟩, 300, 20⟩, false⟩ := by
    simp [detectStep, tickRepEngine, numLt, numLe, numGe, numGt,
      BodyDepthTracker.updateBaseline, BodyDepthTracker.trackDepth,
      BodyDepthTracker.setRequiredDrop, BodyDepthTracker.checkValidity,
      BodyDepthTracker.resetRep, EMA.add, EMA.get, DEBOUNCE_FRAMES,
      COOLDOWN_MS, MIN_REP_DURATION_MS, max_def] <;> norm_num <;> simp
  have s7 : detectStep ⟨⟨.GOING_UP, 0, 1, 0, 40⟩,
        ⟨⟨some 300, 1/10⟩, 300, 20⟩, false⟩ ⟨some 160, 70, 300, 200⟩ 155 95
      = ⟨⟨.GOING_UP, 0, 2, 0, 40⟩, ⟨⟨some 300, 1/10⟩, 300, 20⟩, false⟩ := by
    simp [detectStep, tickRepEngine, numLt, numLe, numGe, numGt,
      BodyDepthTracker.updateBaseline, BodyDepthTracker.trackDepth,
      BodyDepthTracker.setRequiredDrop, BodyDepthTracker.checkValidity,
      BodyDepthTracker.resetRep, EMA.add, EMA.get, DEBOUNCE_FRAMES,
      COOLDOWN_MS, MIN_REP_DURATION_MS, max_def] <;> norm_num <;> simp
  have s8 : detectStep ⟨⟨.GOING_UP, 0, 2, 0, 40⟩,
        ⟨⟨some 300, 1/10⟩, 300, 20⟩, false⟩ ⟨some 160, 80, 300, 200⟩ 155 95
      = ⟨⟨.UP, -1, 0, 0, 40⟩, ⟨⟨some 300, 1/10⟩, -1, 20⟩, true⟩ := by
    simp [detectStep, tickRepEngine, numLt, numLe, numGe, numGt,
      BodyDepthTracker.updateBaseline, BodyDepthTracker.trackDepth,
      BodyDepthTracker.setRequiredDrop, BodyDepthTracker.checkValidity,
      BodyDepthTracker.resetRep, EMA.add, EMA.get, DEBOUNCE_FRAMES,
      COOLDOWN_MS, MIN_REP_DURATION_MS, max_def] <;> norm_num
  rw [runDetect_cons, s1, runDetect_cons, s2, runDetect_cons, s3,
    runDetect_cons, s4, runDetect_cons, s5, runDetect_cons, s6,
    runDetect_cons, s7, runDetect_cons, s8]
  rfl

/-- C9: for all finite inputs, `calculateAngle` returns a value in the
closed interval [0, 180] degrees: the absolute bearing difference is at
most 2π radians, i.e. at most 360 degrees, and any value above 180 is
folded to 360 minus it. -/
theorem C9_calculateAngle_range (A B C : Point) :
    0 ≤ calculateAngle A B C ∧ calculateAngle A B C ≤ 180 := by
  have hpi : (0:ℝ) < Real.pi := Real.pi_pos
  have h1 : |atan2 (C.y - B.y) (C.x - B.x)| ≤ Real.pi :=
    Complex.abs_arg_le_pi _
  have h2 : |atan2 (A.y - B.y) (A.x - B.x)| ≤ Real.pi :=
    Complex.abs_arg_le_pi _
  set r := atan2 (C.y - B.y) (C.x - B.x) - atan2 (A.y - B.y) (A.x - B.x)
    with hrdef
  have hsub : |r| ≤ |atan2 (C.y - B.y) (C.x - B.x)|
      + |atan2 (A.y - B.y) (A.x - B.x)| := abs_sub _ _
  have hr2 : |r| ≤ 2 * Real.pi := by linarith
  have heq : |r * 180 / Real.pi| = |r| * 180 / Real.pi := by
    rw [abs_div, abs_mul, abs_of_pos hpi]
    norm_num
  have h0 : 0 ≤ |r| * 180 / Real.pi := by positivity
  have h360 : |r| * 180 / Real.pi ≤ 360 := by
    rw [div_le_iff₀ hpi]
    nlinarith
  have hcalc : calculateAngle A B C
      = if 180 < |r * 180 / Real.pi| then 360 - |r * 180 / Real.pi|
        else |r * 180 / Real.pi| := rfl
  rw [hcalc, heq]
  split_ifs with h
  · constructor <;> linarith
  · constructor <;> linarith

end Rize
